import Mathlib

/-!
Verification of the DigiDoc document-processing pipeline of HQ-Suite.

Shallow embedding of the core pipeline: structural fingerprint
computation and comparison (ocr_service/matching/structural.py), the
confidence scorer (ocr_service/confidence_scorer.py), the document
orchestration task (ocr_service/tasks/document_tasks.py) with its field
extraction step (ocr_service/extractors/document_extractor.py), and the
queue status adapter (ocr_service/queue/rq_adapter.py).

Numeric values carried by the Python code (ratios, scores, thresholds)
are modelled as rationals, which machine floats embed into exactly; the
similarity metric of compare_fingerprints uses real square roots and
exponentials, so that function returns a real number.
-/

namespace DigiDoc

/-- Content zone of a structural fingerprint: a classified rectangular
region expressed as ratios of the page dimensions
(structural.py, compute_structural_fingerprint docstring). -/
structure Zone where
  type : String
  x_ratio : ℚ
  y_ratio : ℚ
  width_ratio : ℚ
  height_ratio : ℚ
  area_ratio : ℚ
deriving DecidableEq

/-- Structural fingerprint of a page (structural.py,
compute_structural_fingerprint return value). -/
structure Fingerprint where
  image_width : ℕ
  image_height : ℕ
  zones : List Zone
  zone_count : ℕ
  total_content_area_ratio : ℚ
deriving DecidableEq

/-- First zone of the given type in a zone list; models
`zones_by_type[t][0]` as built by the grouping loops of
compare_fingerprints (the grouping keeps list order, so the first
element of a group is the first zone of that type). -/
def firstOfType (zs : List Zone) (t : String) : Option Zone :=
  zs.find? (fun z => z.type == t)

/-- Zone types present in either fingerprint, each once: models
`set(zones1_by_type.keys()) | set(zones2_by_type.keys())` in
compare_fingerprints. Python iterates a set in unspecified order; the
uses below (sum and length of the per-type scores) are order
independent, so a deduplicated list is a faithful model. -/
def allTypes (zs1 zs2 : List Zone) : List String :=
  ((zs1.map Zone.type) ++ (zs2.map Zone.type)).dedup

/-- Euclidean distance over the 5 ratio features of two zones
(compare_fingerprints: `np.sqrt(sum((a - b) ** 2 ...))`). -/
noncomputable def zoneFeatureDist (z1 z2 : Zone) : ℝ :=
  Real.sqrt (((z1.x_ratio : ℝ) - (z2.x_ratio : ℝ)) ^ 2
    + ((z1.y_ratio : ℝ) - (z2.y_ratio : ℝ)) ^ 2
    + ((z1.width_ratio : ℝ) - (z2.width_ratio : ℝ)) ^ 2
    + ((z1.height_ratio : ℝ) - (z2.height_ratio : ℝ)) ^ 2
    + ((z1.area_ratio : ℝ) - (z2.area_ratio : ℝ)) ^ 2)

/-- Per-type zone similarity scores (`zone_scores` in
compare_fingerprints): for each type present in either list, compare
the first zone of that type on each side, skipping types missing from
either side, with similarity `np.exp(-distance * 2)`. -/
noncomputable def typeScores (zs1 zs2 : List Zone) : List ℝ :=
  (allTypes zs1 zs2).filterMap (fun t =>
    match firstOfType zs1 t, firstOfType zs2 t with
    | some z1, some z2 => some (Real.exp (-(zoneFeatureDist z1 z2) * 2))
    | _, _ => none)

/-- Shallow embedding of compare_fingerprints (structural.py lines
152-263). The final `np.clip(x, 0.0, 1.0)` is `min (max x 0) 1`. -/
noncomputable def compare_fingerprints (f1 f2 : Fingerprint) : ℝ :=
  if f1.zones.length = 0 ∧ f2.zones.length = 0 then 1
  else if f1.zones.length = 0 ∨ f2.zones.length = 0 then 0
  else
    let zone_count_diff : ℤ := (f1.zones.length : ℤ) - (f2.zones.length : ℤ)
    let max_zones : ℕ := max f1.zones.length f2.zones.length
    let zone_count_score : ℚ :=
      if 0 < max_zones then 1 - ((zone_count_diff.natAbs : ℚ) / (max_zones : ℚ)) else 1
    let area_diff : ℚ := |f1.total_content_area_ratio - f2.total_content_area_ratio|
    let area_score : ℚ := 1 - min area_diff 1
    let zone_scores := typeScores f1.zones f2.zones
    let avg_zone_score : ℝ :=
      if 0 < zone_scores.length then zone_scores.sum / (zone_scores.length : ℝ) else 0
    let overall_score : ℝ :=
      0.3 * (zone_count_score : ℝ) + 0.2 * (area_score : ℝ) + 0.5 * avg_zone_score
    min (max overall_score 0) 1

/-- Bounding box and area of one detected external contour, as returned
by the external OpenCV calls `cv2.boundingRect` and `cv2.contourArea`
inside compute_structural_fingerprint. -/
structure Contour where
  x : ℕ
  y : ℕ
  w : ℕ
  h : ℕ
  area : ℚ
deriving DecidableEq

/-- Modelled from the external OpenCV contract (OpenCV is an external
collaborator of the repository): for an image of size `w × h`,
`cv2.boundingRect` returns a box inside the image, `cv2.contourArea` is
nonnegative and bounded by the bounding box area, and the contours
returned by `cv2.findContours` with `RETR_EXTERNAL` bound pairwise
disjoint regions, so their areas sum to at most the image area. -/
def ContoursWF (w h : ℕ) (cs : List Contour) : Prop :=
  (∀ c ∈ cs, c.x + c.w ≤ w ∧ c.y + c.h ≤ h ∧ 0 ≤ c.area ∧ c.area ≤ (c.w : ℚ) * (c.h : ℚ))
    ∧ (cs.map Contour.area).sum ≤ (w : ℚ) * (h : ℚ)

/-- Zone classification heuristics (structural.py, `_classify_zone`). -/
def _classify_zone (y_ratio height_ratio width_ratio area_ratio : ℚ) : String :=
  if y_ratio < 0.2 ∧ width_ratio > 0.5 ∧ height_ratio < 0.3 then "header"
  else if y_ratio > 0.7 ∧ width_ratio > 0.5 ∧ height_ratio < 0.3 then "footer"
  else if 0.2 ≤ y_ratio ∧ y_ratio ≤ 0.7 ∧ width_ratio > 0.6 ∧ height_ratio > 0.3
      ∧ area_ratio > 0.1 then "table"
  else if y_ratio < 0.3 ∧ area_ratio < 0.05 ∧ |width_ratio - height_ratio| < 0.1 then "logo"
  else "other"

/-- Zone built from one surviving contour inside the loop of
compute_structural_fingerprint: ratios of position and size relative to
the image dimensions, plus the classified type. -/
def mkZone (w h : ℕ) (c : Contour) : Zone :=
  let x_ratio : ℚ := (c.x : ℚ) / (w : ℚ)
  let y_ratio : ℚ := (c.y : ℚ) / (h : ℚ)
  let width_ratio : ℚ := (c.w : ℚ) / (w : ℚ)
  let height_ratio : ℚ := (c.h : ℚ) / (h : ℚ)
  let area_ratio : ℚ := c.area / ((w : ℚ) * (h : ℚ))
  { type := _classify_zone y_ratio height_ratio width_ratio area_ratio,
    x_ratio := x_ratio, y_ratio := y_ratio, width_ratio := width_ratio,
    height_ratio := height_ratio, area_ratio := area_ratio }

/-- Ordering of zones by vertical position, the sort key of
`zones.sort(key=lambda z: z[y_ratio])`. -/
def zoneLE (a b : Zone) : Prop := a.y_ratio ≤ b.y_ratio

instance : DecidableRel zoneLE := fun a b => inferInstanceAs (Decidable (a.y_ratio ≤ b.y_ratio))

instance : IsTotal Zone zoneLE := ⟨fun a b => le_total a.y_ratio b.y_ratio⟩

instance : IsTrans Zone zoneLE := ⟨fun _ _ _ hab hbc => le_trans hab hbc⟩

/-- Shallow embedding of compute_structural_fingerprint (structural.py
lines 45-116). The image decoding, binarization and contour detection
are external OpenCV calls; the function is parameterized by the image
dimensions and the detected contour list they produce. Python sorts the
zone list in place by `y_ratio`; any comparison sort models it, and the
embedding uses insertion sort. -/
def compute_structural_fingerprint (w h : ℕ) (contours : List Contour) : Fingerprint :=
  if contours.length = 0 then
    { image_width := w, image_height := h, zones := [], zone_count := 0,
      total_content_area_ratio := 0 }
  else
    let min_area : ℚ := ((w : ℚ) * (h : ℚ)) * 0.001
    let kept := contours.filter (fun c => decide (¬ c.area < min_area))
    let zones := (kept.map (mkZone w h)).insertionSort zoneLE
    let total_content_area : ℚ := (kept.map Contour.area).sum
    { image_width := w, image_height := h, zones := zones,
      zone_count := zones.length,
      total_content_area_ratio := total_content_area / ((w : ℚ) * (h : ℚ)) }

/-- Well-formedness of a fingerprint claimed by the specification: every
ratio field lies in the unit interval and the zones are sorted by
`y_ratio` ascending. -/
def FingerprintWF (fp : Fingerprint) : Prop :=
  (∀ z ∈ fp.zones,
      0 ≤ z.x_ratio ∧ z.x_ratio ≤ 1 ∧ 0 ≤ z.y_ratio ∧ z.y_ratio ≤ 1
        ∧ 0 ≤ z.width_ratio ∧ z.width_ratio ≤ 1
        ∧ 0 ≤ z.height_ratio ∧ z.height_ratio ≤ 1
        ∧ 0 ≤ z.area_ratio ∧ z.area_ratio ≤ 1)
    ∧ 0 ≤ fp.total_content_area_ratio ∧ fp.total_content_area_ratio ≤ 1
    ∧ fp.zones.Sorted zoneLE

lemma sum_map_filter_le {α : Type*} (f : α → ℚ) (p : α → Bool) :
    ∀ l : List α, (∀ a ∈ l, 0 ≤ f a) → ((l.filter p).map f).sum ≤ (l.map f).sum
  | [], _ => le_refl _
  | a :: t, h => by
    have ht : ((t.filter p).map f).sum ≤ (t.map f).sum :=
      sum_map_filter_le f p t fun b hb => h b (List.mem_cons_of_mem _ hb)
    by_cases hp : p a
    · simpa [List.filter_cons, hp] using add_le_add_left ht (f a)
    · simp only [List.filter_cons, hp, Bool.false_eq_true, if_false, List.map_cons,
        List.sum_cons]
      exact le_add_of_nonneg_of_le (h a (List.mem_cons_self a t)) ht

/-- C9: every fingerprint computed by `compute_structural_fingerprint`
from well-formed OpenCV contour output has all its ratio fields
(including `total_content_area_ratio`) in `[0, 1]` and its zones sorted
by `y_ratio` ascending. -/
theorem compute_structural_fingerprint_wf (w h : ℕ) (contours : List Contour)
    (hw : 0 < w) (hh : 0 < h) (hc : ContoursWF w h contours) :
    FingerprintWF (compute_structural_fingerprint w h contours) := by
  obtain ⟨hbox, hsum⟩ := hc
  have hw' : (0 : ℚ) < (w : ℚ) := by exact_mod_cast hw
  have hh' : (0 : ℚ) < (h : ℚ) := by exact_mod_cast hh
  have hwh : (0 : ℚ) < (w : ℚ) * (h : ℚ) := mul_pos hw' hh'
  unfold compute_structural_fingerprint
  by_cases hnil : contours.length = 0
  · simp [hnil, FingerprintWF, List.Sorted]
  · rw [if_neg hnil]
    refine ⟨?_, ?_, ?_, ?_⟩
    · intro z hz
      have hz2 : z ∈ (contours.filter
          (fun c => decide (¬ c.area < ((w : ℚ) * (h : ℚ)) * 0.001))).map (mkZone w h) := by
        have hperm := List.perm_insertionSort zoneLE
          ((contours.filter
            (fun c => decide (¬ c.area < ((w : ℚ) * (h : ℚ)) * 0.001))).map (mkZone w h))
        exact hperm.mem_iff.mp hz
      obtain ⟨c, hcmem, hcz⟩ := List.mem_map.mp hz2
      have hcin : c ∈ contours := List.mem_of_mem_filter hcmem
      obtain ⟨hx, hy, ha0, ha1⟩ := hbox c hcin
      have hxw : (c.x : ℚ) ≤ (w : ℚ) := by
        exact_mod_cast le_trans (Nat.le_add_right c.x c.w) hx
      have hww : (c.w : ℚ) ≤ (w : ℚ) := by
        exact_mod_cast le_trans (Nat.le_add_left c.w c.x) hx
      have hyh : (c.y : ℚ) ≤ (h : ℚ) := by
        exact_mod_cast le_trans (Nat.le_add_right c.y c.h) hy
      have hhh : (c.h : ℚ) ≤ (h : ℚ) := by
        exact_mod_cast le_trans (Nat.le_add_left c.h c.y) hy
      have harea : c.area ≤ (w : ℚ) * (h : ℚ) :=
        le_trans ha1 (mul_le_mul hww hhh (Nat.cast_nonneg c.h) (le_of_lt hw'))
      subst hcz
      refine ⟨?_, ?_, ?_, ?_, ?_, ?_, ?_, ?_, ?_, ?_⟩ <;>
        simp only [mkZone]
      · exact div_nonneg (Nat.cast_nonneg c.x) (le_of_lt hw')
      · exact (div_le_one hw').mpr hxw
      · exact div_nonneg (Nat.cast_nonneg c.y) (le_of_lt hh')
      · exact (div_le_one hh').mpr hyh
      · exact div_nonneg (Nat.cast_nonneg c.w) (le_of_lt hw')
      · exact (div_le_one hw').mpr hww
      · exact div_nonneg (Nat.cast_nonneg c.h) (le_of_lt hh')
      · exact (div_le_one hh').mpr hhh
      · exact div_nonneg ha0 (le_of_lt hwh)
      · exact (div_le_one hwh).mpr harea
    · refine div_nonneg ?_ (le_of_lt hwh)
      refine List.sum_nonneg ?_
      intro q hq
      obtain ⟨c, hcmem, hcq⟩ := List.mem_map.mp hq
      have hcin : c ∈ contours := List.mem_of_mem_filter hcmem
      exact hcq ▸ (hbox c hcin).2.2.1
    · refine (div_le_one hwh).mpr ?_
      refine le_trans ?_ hsum
      exact sum_map_filter_le Contour.area _ contours fun c hcin => (hbox c hcin).2.2.1
    · exact List.sorted_insertionSort zoneLE _

lemma zoneFeatureDist_self (z : Zone) : zoneFeatureDist z z = 0 := by
  simp [zoneFeatureDist]

lemma zoneFeatureDist_comm (z1 z2 : Zone) : zoneFeatureDist z1 z2 = zoneFeatureDist z2 z1 := by
  unfold zoneFeatureDist
  ring_nf

lemma filterMap_eq_map_const {α β : Type*} (f : α → Option β) (c : β) :
    ∀ l : List α, (∀ a ∈ l, f a = some c) → l.filterMap f = l.map fun _ => c
  | [], _ => rfl
  | a :: t, h => by
    simp only [List.filterMap_cons, h a (List.mem_cons_self a t), List.map_cons]
    rw [filterMap_eq_map_const f c t fun b hb => h b (List.mem_cons_of_mem _ hb)]

lemma firstOfType_self_mem (zs : List Zone) (t : String) (ht : t ∈ zs.map Zone.type) :
    ∃ z, firstOfType zs t = some z := by
  obtain ⟨z, hz, hzt⟩ := List.mem_map.mp ht
  have : (zs.find? (fun z => z.type == t)).isSome := by
    rw [List.find?_isSome]
    exact ⟨z, hz, by simp [hzt]⟩
  exact Option.isSome_iff_exists.mp this

lemma typeScores_self (zs : List Zone) :
    typeScores zs zs = (allTypes zs zs).map fun _ => (1 : ℝ) := by
  unfold typeScores
  refine filterMap_eq_map_const _ _ _ ?_
  intro t ht
  have htm : t ∈ zs.map Zone.type := by
    rcases (List.mem_append.mp (List.mem_dedup.mp ht)) with hm | hm <;> exact hm
  obtain ⟨z, hz⟩ := firstOfType_self_mem zs t htm
  simp [hz, zoneFeatureDist_self]

lemma allTypes_self_ne_nil (zs : List Zone) (hzs : zs ≠ []) : allTypes zs zs ≠ [] := by
  cases hz : zs with
  | nil => exact absurd hz hzs
  | cons z t =>
    refine List.ne_nil_of_mem (a := z.type) ?_
    simp [allTypes, hz]

/-- C3: compare_fingerprints on empty fingerprints — both empty gives
1.0; exactly one empty gives 0.0 in either argument order
(structural.py lines 170-176). -/
theorem compare_fingerprints_empty_cases (a b : Fingerprint) :
    (a.zones = [] → b.zones = [] → compare_fingerprints a b = 1)
      ∧ (a.zones = [] → b.zones ≠ [] →
          compare_fingerprints a b = 0 ∧ compare_fingerprints b a = 0) := by
  constructor
  · intro ha hb
    simp [compare_fingerprints, ha, hb]
  · intro ha hb
    have hbl : b.zones.length ≠ 0 := by simpa [List.length_eq_zero] using hb
    constructor <;> simp [compare_fingerprints, ha, hbl]

/-- C8: for every fingerprint with at least one zone, comparing the
fingerprint against itself scores at least 0.99 (in fact exactly 1.0):
zone counts and total areas agree, and every per-type comparison is at
distance 0, hence similarity `exp 0 = 1`. -/
theorem compare_fingerprints_self_ge (f : Fingerprint) (hf : f.zones ≠ []) :
    0.99 ≤ compare_fingerprints f f := by
  have hlen : f.zones.length ≠ 0 := by simpa [List.length_eq_zero] using hf
  have hone : compare_fingerprints f f = 1 := by
    unfold compare_fingerprints
    rw [if_neg (by simp [hlen]), if_neg (by simp [hlen])]
    have hmax : 0 < max f.zones.length f.zones.length := by
      rw [max_self]
      exact Nat.pos_of_ne_zero hlen
    have hat : (allTypes f.zones f.zones).length ≠ 0 := by
      simpa [List.length_eq_zero] using allTypes_self_ne_nil f.zones hf
    have hat0 : 0 < (allTypes f.zones f.zones).length := Nat.pos_of_ne_zero hat
    have hd : ((allTypes f.zones f.zones).length : ℝ) ≠ 0 := by exact_mod_cast hat
    have h1 : (List.map (fun _ => (1 : ℝ)) (allTypes f.zones f.zones)).sum
        = ((allTypes f.zones f.zones).length : ℝ) := by simp
    have hmin : (0 : ℚ) ⊓ 1 = 0 := min_eq_left zero_le_one
    simp only [typeScores_self, sub_self, Int.natAbs_zero, Nat.cast_zero, zero_div,
      abs_zero, if_pos hmax, if_pos hat0, List.length_map, h1, div_self hd, hmin,
      sub_zero, Rat.cast_one]
    norm_num [max_def, min_def]
  rw [hone]
  norm_num

lemma allTypes_perm (zs1 zs2 : List Zone) :
    List.Perm (allTypes zs1 zs2) (allTypes zs2 zs1) := by
  refine List.perm_of_nodup_nodup_toFinset_eq (List.nodup_dedup _) (List.nodup_dedup _) ?_
  ext t
  simp [allTypes, List.mem_dedup, or_comm]

lemma typeScores_perm (zs1 zs2 : List Zone) :
    List.Perm (typeScores zs1 zs2) (typeScores zs2 zs1) := by
  unfold typeScores
  have hfun : ∀ t,
      (match firstOfType zs2 t, firstOfType zs1 t with
        | some z1, some z2 => some (Real.exp (-(zoneFeatureDist z1 z2) * 2))
        | _, _ => (none : Option ℝ))
      = (match firstOfType zs1 t, firstOfType zs2 t with
        | some z1, some z2 => some (Real.exp (-(zoneFeatureDist z1 z2) * 2))
        | _, _ => none) := by
    intro t
    cases h1 : firstOfType zs1 t <;> cases h2 : firstOfType zs2 t <;>
      simp [h1, h2]
    rw [zoneFeatureDist_comm]
  have hstep : List.Perm
      ((allTypes zs1 zs2).filterMap (fun t =>
        match firstOfType zs1 t, firstOfType zs2 t with
        | some z1, some z2 => some (Real.exp (-(zoneFeatureDist z1 z2) * 2))
        | _, _ => none))
      ((allTypes zs2 zs1).filterMap (fun t =>
        match firstOfType zs1 t, firstOfType zs2 t with
        | some z1, some z2 => some (Real.exp (-(zoneFeatureDist z1 z2) * 2))
        | _, _ => none)) := (allTypes_perm zs1 zs2).filterMap _
  have heq : (allTypes zs2 zs1).filterMap (fun t =>
        match firstOfType zs1 t, firstOfType zs2 t with
        | some z1, some z2 => some (Real.exp (-(zoneFeatureDist z1 z2) * 2))
        | _, _ => none)
      = (allTypes zs2 zs1).filterMap (fun t =>
        match firstOfType zs2 t, firstOfType zs1 t with
        | some z1, some z2 => some (Real.exp (-(zoneFeatureDist z1 z2) * 2))
        | _, _ => none) := by
    refine List.filterMap_congr ?_
    intro t _
    exact (hfun t).symm
  exact heq ▸ hstep

/-- C10: compare_fingerprints is symmetric in its two arguments: the
empty-case guards, the zone-count and area terms, and the per-type
similarity average are all invariant under swapping the fingerprints. -/
theorem compare_fingerprints_comm (a b : Fingerprint) :
    compare_fingerprints a b = compare_fingerprints b a := by
  by_cases ha : a.zones.length = 0 <;> by_cases hb : b.zones.length = 0
  · simp [compare_fingerprints, ha, hb]
  · simp [compare_fingerprints, ha, hb]
  · simp [compare_fingerprints, ha, hb]
  · have hsum : (typeScores a.zones b.zones).sum = (typeScores b.zones a.zones).sum :=
      (typeScores_perm a.zones b.zones).sum_eq
    have hlen : (typeScores a.zones b.zones).length = (typeScores b.zones a.zones).length :=
      (typeScores_perm a.zones b.zones).length_eq
    have hcnt : ((a.zones.length : ℤ) - (b.zones.length : ℤ)).natAbs
        = ((b.zones.length : ℤ) - (a.zones.length : ℤ)).natAbs := by
      rw [← Int.natAbs_neg, neg_sub]
    have habs : |a.total_content_area_ratio - b.total_content_area_ratio|
        = |b.total_content_area_ratio - a.total_content_area_ratio| := abs_sub_comm _ _
    unfold compare_fingerprints
    rw [if_neg (by simp [ha, hb]), if_neg (by simp [ha, hb]),
      if_neg (by simp [ha, hb]), if_neg (by simp [ha, hb])]
    simp only [hsum, hlen, hcnt, habs, max_comm a.zones.length b.zones.length]

/-- Concrete empty fingerprint, as returned for a page without detected
content. -/
def emptyFingerprint : Fingerprint :=
  { image_width := 100, image_height := 100, zones := [], zone_count := 0,
    total_content_area_ratio := 0 }

/-- Concrete sample zone used by the witnesses. -/
def sampleZone : Zone :=
  { type := "header", x_ratio := 0.1, y_ratio := 0.05, width_ratio := 0.8,
    height_ratio := 0.1, area_ratio := 0.08 }

/-- Concrete nonempty fingerprint used by the witnesses. -/
def oneZoneFingerprint : Fingerprint :=
  { image_width := 100, image_height := 100, zones := [sampleZone], zone_count := 1,
    total_content_area_ratio := 0.08 }

/-- Witness for C3 at concrete fingerprints. -/
theorem compare_fingerprints_empty_cases_witness :
    compare_fingerprints emptyFingerprint emptyFingerprint = 1
      ∧ compare_fingerprints emptyFingerprint oneZoneFingerprint = 0
      ∧ compare_fingerprints oneZoneFingerprint emptyFingerprint = 0 :=
  ⟨(compare_fingerprints_empty_cases emptyFingerprint emptyFingerprint).1 rfl rfl,
    ((compare_fingerprints_empty_cases emptyFingerprint oneZoneFingerprint).2 rfl
      (by simp [oneZoneFingerprint])).1,
    ((compare_fingerprints_empty_cases emptyFingerprint oneZoneFingerprint).2 rfl
      (by simp [oneZoneFingerprint])).2⟩

/-- Witness for C8 at a concrete nonempty fingerprint. -/
theorem compare_fingerprints_self_ge_witness :
    oneZoneFingerprint.zones ≠ []
      ∧ 0.99 ≤ compare_fingerprints oneZoneFingerprint oneZoneFingerprint :=
  ⟨by simp [oneZoneFingerprint],
    compare_fingerprints_self_ge oneZoneFingerprint (by simp [oneZoneFingerprint])⟩

/-- Concrete contour detection output used by the C9 witness: three
content regions shaped like a header, a table and a footer. -/
def sampleContours : List Contour :=
  [{ x := 0, y := 5, w := 90, h := 15, area := 1200 },
    { x := 10, y := 40, w := 80, h := 40, area := 2800 },
    { x := 0, y := 80, w := 90, h := 10, area := 700 }]

/-- Witness for C9 at a concrete contour list. -/
theorem compute_structural_fingerprint_wf_witness :
    (0 : ℕ) < 100 ∧ ContoursWF 100 100 sampleContours
      ∧ FingerprintWF (compute_structural_fingerprint 100 100 sampleContours) :=
  ⟨by decide, by norm_num [ContoursWF, sampleContours, List.forall_mem_cons],
    compute_structural_fingerprint_wf 100 100 sampleContours (by decide) (by decide)
      (by norm_num [ContoursWF, sampleContours, List.forall_mem_cons])⟩

/-- Value of one entry of a Python line-item dict; the validation code
only inspects presence and None-ness of entries. -/
inductive ItemValue where
  | none
  | num (q : ℚ)
  | str (s : String)
deriving DecidableEq

/-- One line item: a Python dict from key to value, modelled as an
association list whose first binding for a key is its value. -/
abbrev LineItem := List (String × ItemValue)

/-- Value of an extracted field as inspected by the confidence scorer:
Python None, a numeric value (int, float or Decimal), a string, or a
list of line-item dicts. -/
inductive FieldValue where
  | none
  | num (q : ℚ)
  | str (s : String)
  | items (l : List LineItem)
deriving DecidableEq

/-- Extracted fields: a Python dict from field name to value, modelled
as an association list whose first binding for a key is its value. -/
abbrev Fields := List (String × FieldValue)

/-- Python truthiness of a field value (`if extracted_fields[k]:`). -/
def truthy : FieldValue → Bool
  | .none => false
  | .num q => decide (q ≠ 0)
  | .str s => decide (s ≠ "")
  | .items l => decide (l ≠ [])

/-- Check `k in fields and fields[k] is not None` used throughout the
scorer. -/
def fieldPresent (fields : Fields) (name : String) : Bool :=
  match fields.lookup name with
  | some v => decide (v ≠ FieldValue.none)
  | Option.none => false

/-- Regex check `^\d{4}-\d{2}-\d{2}$` of `_is_valid_date_format`
(confidence_scorer.py lines 185-189). -/
def _is_valid_date_format (s : String) : Bool :=
  match s.toList with
  | [y1, y2, y3, y4, h1, m1, m2, h2, d1, d2] =>
      y1.isDigit && y2.isDigit && y3.isDigit && y4.isDigit
        && h1 == '-' && m1.isDigit && m2.isDigit && h2 == '-' && d1.isDigit && d2.isDigit
  | _ => false

/-- Drops one leading sign character, if present. -/
def dropSign : List Char → List Char
  | c :: r => if c == '+' || c == '-' then r else c :: r
  | [] => []

/-- Exponent part of a decimal numeral: `(e|E) sign? digits`. -/
def isExpPart (l : List Char) : Bool :=
  match l with
  | c :: r =>
      (c == 'e' || c == 'E')
        && (let d := dropSign r
            !d.isEmpty && d.all Char.isDigit)
  | [] => false

/-- Coefficient of a finite decimal numeral with optional exponent:
`digits [. digits]` or `. digits`, at least one digit in total, then an
optional exponent part. -/
def isNumericCore (l : List Char) : Bool :=
  let d1 := l.takeWhile Char.isDigit
  let r1 := l.dropWhile Char.isDigit
  match r1 with
  | [] => !d1.isEmpty
  | c :: r2 =>
      if c == '.' then
        let d2 := r2.takeWhile Char.isDigit
        let r3 := r2.dropWhile Char.isDigit
        (!d1.isEmpty || !d2.isEmpty) && (r3.isEmpty || isExpPart r3)
      else (!d1.isEmpty) && isExpPart (c :: r2)

/-- Models the numeric-string grammar accepted by the Python standard
library constructor `decimal.Decimal` (an external collaborator):
optional surrounding whitespace, an optional sign, then either a finite
numeral or one of the special values NaN, sNaN, Inf, Infinity
(case-insensitive). Digit-grouping underscores and NaN diagnostic
payloads are left out of the model; no claim depends on them.
`_is_valid_currency` only asks whether this constructor raises. -/
def decimalParses (s : String) : Bool :=
  let l1 := s.toList.dropWhile Char.isWhitespace
  let l2 := ((l1.reverse.dropWhile Char.isWhitespace)).reverse
  let body := dropSign l2
  let lower := body.map Char.toLower
  isNumericCore body || lower == "nan".toList || lower == "inf".toList
    || lower == "infinity".toList || lower == "snan".toList

/-- Shallow embedding of `_is_valid_currency` (confidence_scorer.py
lines 191-202): numeric values (int, float, Decimal) are valid exactly
when nonnegative; strings are valid exactly when `Decimal(value)` does
not raise, regardless of sign; any other type falls through to
`return False`. (`None` values are filtered out by the caller.) -/
def _is_valid_currency : FieldValue → Bool
  | .num q => decide (0 ≤ q)
  | .str s => decimalParses s
  | _ => false

/-- Shallow embedding of `_is_valid_line_item` (confidence_scorer.py
lines 204-207): both `description` and `line_total` present and not
None. -/
def _is_valid_line_item (item : LineItem) : Bool :=
  (match item.lookup "description" with
    | some v => decide (v ≠ ItemValue.none)
    | Option.none => false)
    && (match item.lookup "line_total" with
    | some v => decide (v ≠ ItemValue.none)
    | Option.none => false)

/-- Currency fields checked by `_calculate_validation_score`. -/
def currencyFields : List String := ["total_amount", "subtotal", "tax_amount"]

/-- Shallow embedding of `_calculate_validation_score`
(confidence_scorer.py lines 148-183), accumulating `issues` across the
date check, the currency-field loop and the line-item loop, then
`max(0.0, 1.0 - issues * 0.1)`. A truthy non-string date value would
raise a TypeError inside `re.match` in the source; the model counts it
as an invalid format (no claim depends on that corner). -/
def _calculate_validation_score (fields : Fields) : ℚ :=
  let dateIssues : ℕ :=
    match fields.lookup "receipt_date" with
    | some v =>
        if truthy v then
          (match v with
            | .str s => if _is_valid_date_format s then 0 else 1
            | _ => 1)
        else 0
    | Option.none => 0
  let issues1 := currencyFields.foldl (fun acc f =>
    match fields.lookup f with
    | some v => if v ≠ FieldValue.none ∧ _is_valid_currency v = false then acc + 1 else acc
    | Option.none => acc) dateIssues
  let issues2 : ℕ :=
    match fields.lookup "line_items" with
    | some (.items l) =>
        l.foldl (fun acc item => if _is_valid_line_item item then acc else acc + 1) issues1
    | _ => issues1
  max 0 (1 - (issues2 : ℚ) * 0.1)

/-- OCR data handed to the scorer: the optional per-token confidence
list (with the `-1` sentinel entries of Tesseract still present) and
truthiness of the `text` entry; `Option.none` is an absent or empty
dict. -/
structure OcrData where
  conf : Option (List ℚ)
  text : Bool
deriving DecidableEq

/-- Shallow embedding of `_calculate_ocr_quality` (confidence_scorer.py
lines 74-96): mean per-token confidence normalized from 0-100 after
filtering the `-1` sentinel; fallback 0.6 when text exists without
usable confidences; 0.0 otherwise. -/
def _calculate_ocr_quality (ocr_data : Option OcrData) : ℚ :=
  match ocr_data with
  | Option.none => 0
  | some d =>
      match d.conf with
      | some cs =>
          let confidences := cs.filter (fun c => decide (c ≠ -1))
          if confidences.length ≠ 0 then
            (confidences.sum / (confidences.length : ℚ)) / 100
          else if d.text then 0.6 else 0
      | Option.none => if d.text then 0.6 else 0

/-- Format template surface used by the scorer (`BaseDocumentFormat` in
formats/base_format.py). -/
structure FormatTemplate where
  vendor_name : Option String
  format_id : Option String
  required_fields : List String
  optional_fields : List String
deriving DecidableEq

/-- Shallow embedding of `BaseDocumentFormat.get_field_extraction_rate`
(base_format.py lines 64-81): fraction of required fields present and
not None; 1.0 when no required fields. No format subclass of the
repository overrides this method. -/
def get_field_extraction_rate (fmt : FormatTemplate) (fields : Fields) : ℚ :=
  if fmt.required_fields = [] then 1
  else ((fmt.required_fields.countP (fun f => fieldPresent fields f)) : ℚ)
    / (fmt.required_fields.length : ℚ)

/-- Shallow embedding of `_calculate_field_extraction_score`
(confidence_scorer.py lines 98-122). -/
def _calculate_field_extraction_score (fields : Fields) (fmt : FormatTemplate) : ℚ :=
  if fmt.required_fields = [] then 1
  else
    let extraction_rate := get_field_extraction_rate fmt fields
    let optional_extracted : ℕ := fmt.optional_fields.countP (fun f => fieldPresent fields f)
    let optional_bonus : ℚ :=
      if fmt.optional_fields = [] then 0
      else ((optional_extracted : ℚ) / (fmt.optional_fields.length : ℚ)) * 0.1
    min 1 (extraction_rate + optional_bonus)

/-- Numeric content of a field value; `_calculate_pattern_matching_score`
returns the stored format-detection confidence directly (the source
assumes the stored value is numeric). -/
def numValue : FieldValue → ℚ
  | .num q => q
  | _ => 0

/-- Shallow embedding of `_calculate_pattern_matching_score`
(confidence_scorer.py lines 124-146). -/
def _calculate_pattern_matching_score (fields : Fields) (fmt : FormatTemplate) : ℚ :=
  match fields.lookup "format_detection_confidence" with
  | some v => numValue v
  | Option.none =>
      if fmt.required_fields ≠ [] then
        ((fmt.required_fields.countP (fun f => fieldPresent fields f)) : ℚ)
          / (fmt.required_fields.length : ℚ)
      else 0.8

/-- Shallow embedding of `ConfidenceScorer.calculate_confidence`
(confidence_scorer.py lines 27-72): the four component scores combined
with weights 0.30, 0.40, 0.20, 0.10 and the total clamped into `[0, 1]`
by `min(1.0, max(0.0, total))`. -/
def calculate_confidence (ocr_data : Option OcrData) (fields : Fields)
    (fmt : FormatTemplate) : ℚ :=
  let s_ocr := _calculate_ocr_quality ocr_data
  let s_field := _calculate_field_extraction_score fields fmt
  let s_pattern := _calculate_pattern_matching_score fields fmt
  let s_validation := _calculate_validation_score fields
  min 1 (max 0
    (s_ocr * 0.30 + s_field * 0.40 + s_pattern * 0.20 + s_validation * 0.10))

/-- Shallow embedding of `get_confidence_level` (confidence_scorer.py
lines 209-224). -/
def get_confidence_level (confidence : ℚ) : String :=
  if 0.85 ≤ confidence then "high"
  else if 0.70 ≤ confidence then "medium"
  else "low"

/-- C6: calculate_confidence always lies in `[0, 1]`, and with an empty
required-field list the field-extraction component is exactly 1.0. -/
theorem calculate_confidence_range (ocr_data : Option OcrData) (fields : Fields)
    (fmt : FormatTemplate) :
    0 ≤ calculate_confidence ocr_data fields fmt
      ∧ calculate_confidence ocr_data fields fmt ≤ 1
      ∧ (fmt.required_fields = [] → _calculate_field_extraction_score fields fmt = 1) := by
  refine ⟨?_, ?_, ?_⟩
  · exact le_min zero_le_one (le_max_left 0 _)
  · exact min_le_left _ _
  · intro h
    simp [_calculate_field_extraction_score, h]

/-- Format template with no required fields, used by the C6 witness. -/
def emptyFormat : FormatTemplate :=
  { vendor_name := Option.none, format_id := Option.none,
    required_fields := [], optional_fields := [] }

/-- Witness for C6 at concrete inputs. -/
theorem calculate_confidence_range_witness :
    0 ≤ calculate_confidence Option.none [] emptyFormat
      ∧ calculate_confidence Option.none [] emptyFormat ≤ 1
      ∧ emptyFormat.required_fields = []
      ∧ _calculate_field_extraction_score [] emptyFormat = 1 :=
  ⟨(calculate_confidence_range Option.none [] emptyFormat).1,
    (calculate_confidence_range Option.none [] emptyFormat).2.1,
    rfl,
    (calculate_confidence_range Option.none [] emptyFormat).2.2 rfl⟩

lemma foldl_add_countP {α : Type*} (p : α → Bool) :
    ∀ (l : List α) (n : ℕ),
      l.foldl (fun acc a => if p a then acc + 1 else acc) n = n + l.countP p
  | [], n => by simp
  | a :: t, n => by
    by_cases hp : p a
    · simp [List.foldl_cons, hp, foldl_add_countP p t (n + 1), List.countP_cons]
      omega
    · simp [List.foldl_cons, hp, foldl_add_countP p t n, List.countP_cons]

/-- Issue predicate of the currency loop of
`_calculate_validation_score`, as a Boolean on field names. -/
def currencyIssue (fields : Fields) (f : String) : Bool :=
  match fields.lookup f with
  | some v => decide (v ≠ FieldValue.none) && ! _is_valid_currency v
  | Option.none => false

/-- Validation issue count stated declaratively: one for a truthy date
value not in YYYY-MM-DD format, one per present non-None currency field
whose value fails `_is_valid_currency`, and one per line item missing a
description or total. -/
def issueCount (fields : Fields) : ℕ :=
  (match fields.lookup "receipt_date" with
    | some v =>
        if truthy v then
          (match v with
            | .str s => if _is_valid_date_format s then 0 else 1
            | _ => 1)
        else 0
    | Option.none => 0)
    + currencyFields.countP (currencyIssue fields)
    + (match fields.lookup "line_items" with
      | some (.items l) => l.countP (fun item => ! _is_valid_line_item item)
      | _ => 0)

lemma validation_score_eq_issueCount (fields : Fields) :
    _calculate_validation_score fields = max 0 (1 - (issueCount fields : ℚ) * 0.1) := by
  unfold _calculate_validation_score issueCount
  have hbody : (fun (acc : ℕ) f =>
      match fields.lookup f with
      | some v => if v ≠ FieldValue.none ∧ _is_valid_currency v = false then acc + 1 else acc
      | Option.none => acc)
      = fun (acc : ℕ) f => if currencyIssue fields f then acc + 1 else acc := by
    funext acc f
    unfold currencyIssue
    cases h : fields.lookup f with
    | none => simp
    | some v =>
      by_cases hv : v = FieldValue.none
      · simp [hv]
      · cases hc : _is_valid_currency v <;> simp [hv, hc]
  have hbody2 : (fun (acc : ℕ) (item : LineItem) =>
      if _is_valid_line_item item then acc else acc + 1)
      = fun (acc : ℕ) item => if (! _is_valid_line_item item) then acc + 1 else acc := by
    funext acc item
    cases h : _is_valid_line_item item <;> simp [h]
  simp only [hbody, hbody2, foldl_add_countP]
  cases hli : fields.lookup "line_items" with
  | none => simp [hli]
  | some v =>
    cases v with
    | items l => simp [hli]
    | none => simp [hli]
    | num q => simp [hli]
    | str s => simp [hli]

/-- C7 counterexample input: a negative currency amount carried as the
string it is extracted as. -/
def negStringFields : Fields := [("total_amount", FieldValue.str "-5.00")]

/-- Currency-issue predicate as the claim words it: an amount is an
issue when it is unparsable or negative (definition follows the claim
text, for comparison with the code). A string is negative when it
parses with a leading minus sign and a nonzero digit. -/
def specCurrencyIssue : FieldValue → Bool
  | FieldValue.num q => decide (q < 0)
  | FieldValue.str s =>
      ! decimalParses s
        || (decimalParses s
            && (match s.toList.dropWhile Char.isWhitespace with
              | c :: rest => c == '-' && rest.any (fun d => d.isDigit && d != '0')
              | [] => false))
  | _ => true

/-- Validation issue count as the claim words it, with negative currency
amounts counting as issues regardless of representation. -/
def specIssueCount (fields : Fields) : ℕ :=
  (match fields.lookup "receipt_date" with
    | some v =>
        if truthy v then
          (match v with
            | .str s => if _is_valid_date_format s then 0 else 1
            | _ => 1)
        else 0
    | Option.none => 0)
    + currencyFields.countP (fun f =>
      match fields.lookup f with
      | some v => decide (v ≠ FieldValue.none) && specCurrencyIssue v
      | Option.none => false)
    + (match fields.lookup "line_items" with
      | some (.items l) => l.countP (fun item => ! _is_valid_line_item item)
      | _ => 0)

/-- C7 counterexample: on a present negative string amount the code
counts no issue and scores 1.0, while the claim counts one issue and
demands 0.9. -/
theorem validation_score_negative_string_counterexample :
    _calculate_validation_score negStringFields
      ≠ max 0 (1 - (specIssueCount negStringFields : ℚ) * 0.1)
      ∧ _calculate_validation_score negStringFields = 1
      ∧ specIssueCount negStringFields = 1 := by
  have hic : issueCount negStringFields = 0 := by decide
  have h1 : _calculate_validation_score negStringFields = 1 := by
    rw [validation_score_eq_issueCount, hic]
    norm_num
  have h2 : specIssueCount negStringFields = 1 := by decide
  refine ⟨?_, h1, h2⟩
  rw [h1, h2]
  norm_num

/-- C7 (amended): the data-validation component is `1.0 − 0.1` per
detected issue floored at 0.0, where a currency issue is a negative
numeric amount or an unparsable string — a parsable negative string
amount does not count as an issue. -/
theorem validation_score_amended (fields : Fields) :
    _calculate_validation_score fields = max 0 (1 - (issueCount fields : ℚ) * 0.1)
      ∧ (∀ q : ℚ, q < 0 → _is_valid_currency (FieldValue.num q) = false)
      ∧ (∀ s : String, decimalParses s = true → _is_valid_currency (FieldValue.str s) = true) := by
  refine ⟨validation_score_eq_issueCount fields, ?_, ?_⟩
  · intro q hq
    simp [_is_valid_currency, not_le.mpr hq]
  · intro s hs
    simp [_is_valid_currency, hs]

/-- Fields with two genuine issues (bad date format, negative numeric
amount), used by the amended-C7 witness. -/
def twoIssueFields : Fields :=
  [("receipt_date", FieldValue.str "2025/01/02"), ("total_amount", FieldValue.num (-3))]

/-- Witness for the amended C7 at concrete inputs. -/
theorem validation_score_amended_witness :
    _calculate_validation_score twoIssueFields
        = max 0 (1 - (issueCount twoIssueFields : ℚ) * 0.1)
      ∧ _is_valid_currency (FieldValue.num (-3)) = false
      ∧ decimalParses "-5.00" = true
      ∧ _is_valid_currency (FieldValue.str "-5.00") = true :=
  ⟨(validation_score_amended twoIssueFields).1,
    (validation_score_amended twoIssueFields).2.1 (-3) (by norm_num),
    by decide,
    (validation_score_amended twoIssueFields).2.2 "-5.00" (by decide)⟩

/-- Job status reported by the external RQ backend (`rq.job.JobStatus`);
the adapter maps the first six values, and modern RQ also reports
stopped and canceled jobs, which the `status_map` dict does not
contain. -/
inductive JobStatus where
  | queued
  | started
  | finished
  | failed
  | deferred
  | scheduled
  | stopped
  | canceled
deriving DecidableEq

/-- The `status_map` dict of get_task_status (rq_adapter.py lines
209-216); `dict.get(key, default)` on it is `getD` below. -/
def status_map : JobStatus → Option String
  | .queued => some "queued"
  | .started => some "started"
  | .finished => some "completed"
  | .failed => some "failed"
  | .deferred => some "deferred"
  | .scheduled => some "scheduled"
  | _ => Option.none

/-- Job record fetched from the external backend (`Job.fetch`), with
the timestamps already rendered as the strings the payload carries. -/
structure JobRec where
  get_status : JobStatus
  created_at : Option String
  started_at : Option String
  ended_at : Option String
  result : Option String
  exc_info : Option String
deriving DecidableEq

/-- Status payload returned by get_task_status; keys the code does not
set in a branch are `Option.none`. -/
structure StatusPayload where
  task_id : String
  status : String
  created_at : Option String
  started_at : Option String
  ended_at : Option String
  result : Option String
  error : Option String
deriving DecidableEq

/-- Shallow embedding of RQAdapter.get_task_status (rq_adapter.py lines
195-241). The `Job.fetch` call on the external backend either returns a
job record or raises (for instance NoSuchJobError for an unknown id);
the embedding takes that outcome as input. An unmapped backend status
becomes `unknown`; any exception is caught and reported with status
`error`. -/
def get_task_status (fetch : Except String JobRec) (task_id : String) : StatusPayload :=
  match fetch with
  | .error e =>
      { task_id := task_id, status := "error", created_at := Option.none,
        started_at := Option.none, ended_at := Option.none, result := Option.none,
        error := some e }
  | .ok job =>
      let status := (status_map job.get_status).getD "unknown"
      let base : StatusPayload :=
        { task_id := task_id, status := status, created_at := job.created_at,
          started_at := job.started_at, ended_at := job.ended_at,
          result := Option.none, error := Option.none }
      if status = "completed" then { base with result := job.result }
      else if status = "failed" then
        { base with error := some (match job.exc_info with
            | some e => if e = "" then "Unknown error" else e
            | Option.none => "Unknown error") }
      else base

/-- The six status values the specification fixes. -/
def fixedStatuses : List String :=
  ["queued", "started", "completed", "failed", "deferred", "scheduled"]

/-- C5 counterexample: fetching an unknown task id (backend raise)
yields status `error`, and a stopped job yields status `unknown` —
neither is among the six fixed enumeration values. -/
theorem get_task_status_counterexample :
    (get_task_status (Except.error "No such job") "t1").status ∉ fixedStatuses
      ∧ (get_task_status (Except.error "No such job") "t1").status = "error"
      ∧ (get_task_status (Except.ok
          { get_status := JobStatus.stopped, created_at := Option.none,
            started_at := Option.none, ended_at := Option.none,
            result := Option.none, exc_info := Option.none }) "t2").status ∉ fixedStatuses
      ∧ (get_task_status (Except.ok
          { get_status := JobStatus.stopped, created_at := Option.none,
            started_at := Option.none, ended_at := Option.none,
            result := Option.none, exc_info := Option.none }) "t2").status = "unknown" := by
  refine ⟨?_, rfl, ?_, rfl⟩ <;> decide

/-- C5 (amended): the payload status is one of the six fixed values, or
`unknown` for an unmapped backend status, or `error` when the backend
fetch raises; a `failed` payload always carries an error string, and a
fetch exception always yields status `error` with the exception text. -/
theorem get_task_status_amended (fetch : Except String JobRec) (tid : String) :
    (get_task_status fetch tid).status ∈ fixedStatuses ++ ["unknown", "error"]
      ∧ ((get_task_status fetch tid).status = "failed" →
          ∃ e, (get_task_status fetch tid).error = some e)
      ∧ (∀ e, fetch = Except.error e →
          (get_task_status fetch tid).status = "error"
            ∧ (get_task_status fetch tid).error = some e) := by
  match fetch with
  | .error e =>
      refine ⟨by simp [get_task_status, fixedStatuses], ?_, ?_⟩
      · intro h
        simp [get_task_status] at h
      · intro e2 he
        cases he
        exact ⟨rfl, rfl⟩
  | .ok job =>
      cases hs : job.get_status <;>
        simp [get_task_status, status_map, hs, fixedStatuses]

/-- Failed job record used by the C5 witness. -/
def failedJobFetch : Except String JobRec :=
  Except.ok
    { get_status := JobStatus.failed, created_at := some "2025-01-01T00:00:00",
      started_at := some "2025-01-01T00:00:01", ended_at := some "2025-01-01T00:00:02",
      result := Option.none, exc_info := some "ValueError: boom" }

/-- Witness for the amended C5 at concrete inputs. -/
theorem get_task_status_amended_witness :
    (get_task_status (Except.error "boom") "t1").status = "error"
      ∧ (get_task_status (Except.error "boom") "t1").error = some "boom"
      ∧ (get_task_status failedJobFetch "t2").status ∈ fixedStatuses ++ ["unknown", "error"]
      ∧ (∃ e, (get_task_status failedJobFetch "t2").error = some e) :=
  ⟨((get_task_status_amended (Except.error "boom") "t1").2.2 "boom" rfl).1,
    ((get_task_status_amended (Except.error "boom") "t1").2.2 "boom" rfl).2,
    (get_task_status_amended failedJobFetch "t2").1,
    (get_task_status_amended failedJobFetch "t2").2.1 rfl⟩

/-- Outcome of the external calls made inside DocumentExtractor.extract
(document_extractor.py): the OCR text and data from
OCRProcessor.process_image, the format detection (None when no format
matches), and the fields the detected format template extracts. -/
structure ExtractorRun where
  ocr_text : String
  ocr_data : Option OcrData
  detected : Option (FormatTemplate × ℚ)
  raw_fields : Fields

/-- Result dict of DocumentExtractor.extract. -/
structure ExtractOutput where
  vendor : Option String
  format_detected : Option String
  confidence : ℚ
  confidence_level : String
  fields : Fields
  ocr_text : String
  error : Option String

/-- The three dict assignments of DocumentExtractor.extract lines 78-80:
`format_detection_confidence`, `vendor` and `format` are written into
the extracted fields; prepending models the overwrite, since lookup
takes the first binding. -/
def augmentFields (fmt : FormatTemplate) (format_confidence : ℚ) (raw : Fields) : Fields :=
  ("format", match fmt.format_id with
    | some s => FieldValue.str s
    | Option.none => FieldValue.none)
    :: ("vendor", match fmt.vendor_name with
      | some s => FieldValue.str s
      | Option.none => FieldValue.none)
    :: ("format_detection_confidence", FieldValue.num format_confidence)
    :: raw

/-- Shallow embedding of DocumentExtractor.extract (document_extractor.py
lines 26-105): with no detected format, a minimal result with confidence
0.0 and level low; otherwise the extracted fields are augmented with the
detection confidence, vendor and format id, then scored with
calculate_confidence and get_confidence_level. -/
def documentExtract (run : ExtractorRun) : ExtractOutput :=
  match run.detected with
  | Option.none =>
      { vendor := Option.none, format_detected := Option.none, confidence := 0,
        confidence_level := "low", fields := [], ocr_text := run.ocr_text,
        error := some "No matching format detected" }
  | some (fmt, format_confidence) =>
      let extracted_fields := augmentFields fmt format_confidence run.raw_fields
      let confidence := calculate_confidence run.ocr_data extracted_fields fmt
      { vendor := fmt.vendor_name, format_detected := fmt.format_id,
        confidence := confidence,
        confidence_level := get_confidence_level confidence,
        fields := extracted_fields, ocr_text := run.ocr_text, error := Option.none }

/-- Extraction metadata attached to the task result
(extract_fields_task lines 418-424). -/
structure ExtractionMetadata where
  vendor : Option String
  format_detected : Option String
  confidence : ℚ
  confidence_level : String
  ocr_text_length : ℕ
deriving DecidableEq

/-- Result dict of extract_fields_task. -/
structure ExtractionTaskResult where
  status : String
  queue_item_id : String
  template_id : Option String
  extracted_fields : Fields
  extraction_metadata : Option ExtractionMetadata
  error : Option String
  skeleton_mode : Bool
deriving DecidableEq

/-- Skeleton configuration of the extraction step
(`process_receipt.field_extraction` of skeleton.yaml, read with the
defaults of the `.get` calls). -/
structure ExtractCfg where
  use_mock_extraction : Bool
  mock_fields : Fields
deriving DecidableEq

/-- Environment of extract_fields_task: its skeleton configuration and
the outcome of constructing and running DocumentExtractor (whose OCR
and format-detection calls are external); `Except.error` models an
exception raised anywhere inside the `try` block of lines 405-426. -/
structure ExtractEnv where
  cfg : ExtractCfg
  runOutcome : Except String ExtractorRun

/-- Shallow embedding of extract_fields_task (document_tasks.py lines
371-440): mock fields when the skeleton override is on; otherwise the
DocumentExtractor result with metadata, and on any exception a
`partial` result with empty fields and the error note — the task
itself never raises. -/
def extract_fields_task (env : ExtractEnv) (queue_item_id : String)
    (template_id : Option String) : ExtractionTaskResult :=
  if env.cfg.use_mock_extraction then
    { status := "success", queue_item_id := queue_item_id, template_id := template_id,
      extracted_fields := env.cfg.mock_fields, extraction_metadata := Option.none,
      error := Option.none, skeleton_mode := true }
  else
    match env.runOutcome with
    | .ok run =>
        let out := documentExtract run
        { status := "success", queue_item_id := queue_item_id, template_id := template_id,
          extracted_fields := out.fields,
          extraction_metadata := some
            { vendor := out.vendor, format_detected := out.format_detected,
              confidence := out.confidence, confidence_level := out.confidence_level,
              ocr_text_length := out.ocr_text.length },
          error := Option.none, skeleton_mode := false }
    | .error e =>
        { status := "partial", queue_item_id := queue_item_id, template_id := template_id,
          extracted_fields := [], extraction_metadata := Option.none,
          error := some e, skeleton_mode := false }

/-- Template record as used by the decision step of
process_document_task: the nullable `format_name` column and the
primary-key id handed on to extraction. -/
structure TemplateRec where
  format_name : Option String
  id : Option String
deriving DecidableEq

/-- The `MockTemplate` placeholder built at document_tasks.py lines 232
and 266: the configured mock name and no id. -/
def mockTemplate (name : String) : TemplateRec :=
  { format_name := some name, id := Option.none }

/-- Match result dict returned by match_template (matching_task.py). -/
structure MatchOutcome where
  matched_template_id : Option String
  match_score : ℚ
  template_name : Option String
deriving DecidableEq

/-- Skeleton configuration read by process_document_task
(skeleton.yaml, with the defaults of the `.get` calls: mock matching
off, fallback confidence 0.85, mock name `mock_template`, no threshold
override, no forced status, comparison saving on). -/
structure SkeletonCfg where
  use_mock_matching : Bool
  fallback_confidence : ℚ
  mock_template_name : String
  auto_match_threshold_override : Option ℚ
  force_status : Option String
  save_comparison : Bool
deriving DecidableEq

/-- Environment of one process_document_task run: the configuration and
the outcome of each effectful pipeline step (filesystem, OpenCV,
database and OCR calls); `Except.error` models an exception raised by
that step. -/
structure PipelineEnv where
  skel : SkeletonCfg
  auto_match_config : ℚ
  ensure_dir : Except String Unit
  save_original : Except String String
  preprocess : Except String Unit
  save_preprocessed : Except String String
  comparison : Except String (Option String)
  visual_pause : Except String Unit
  match_outcome : Except String MatchOutcome
  db_lookup : Except String (Option TemplateRec)
  extraction : ExtractEnv

/-- Result dict of process_document_task; keys a branch does not set
are `Option.none`. -/
structure TaskResult where
  status : String
  queue_item_id : String
  confidence : Option ℚ
  template_matched : Option String
  extracted_fields : Option Fields
  extraction_metadata : Option ExtractionMetadata
  message : Option String
  error : Option String
  original_path : Option String
  preprocessed_path : Option String
  comparison_path : Option String
  skeleton_mode : Option Bool
deriving DecidableEq

/-- Step 3 of process_document_task (document_tasks.py lines 219-262):
the selected template (before the mock-placeholder substitution of line
266) and `best_score`. An exception from match_template or the database
lookup is caught by the inner `try` and replaced by the fallback
confidence; with no matched template id, a zero score (no templates in
the database) is replaced by the fallback confidence. -/
def matchingStep (env : PipelineEnv) : Option TemplateRec × ℚ :=
  if env.skel.use_mock_matching then
    (some (mockTemplate env.skel.mock_template_name), env.skel.fallback_confidence)
  else
    match env.match_outcome with
    | .error _ => (Option.none, env.skel.fallback_confidence)
    | .ok mr =>
        match mr.matched_template_id with
        | some _ =>
            (match env.db_lookup with
              | .error _ => (Option.none, env.skel.fallback_confidence)
              | .ok t => (t, mr.match_score))
        | Option.none =>
            (Option.none,
              if mr.match_score = 0 then env.skel.fallback_confidence else mr.match_score)

/-- Python truthiness of the `force_status` configuration value
(`if force_status:` at line 277). -/
def forcedStatus (cfg : SkeletonCfg) : Option String :=
  match cfg.force_status with
  | some s => if s = "" then Option.none else some s
  | Option.none => Option.none

/-- The effective auto-match threshold (line 274): the skeleton
override when it `is not None`, otherwise `config.thresholds.auto_match`. -/
def thresholdOf (env : PipelineEnv) : ℚ :=
  env.skel.auto_match_threshold_override.getD env.auto_match_config

/-- Body of the outer `try` of process_document_task (document_tasks.py
lines 195-323); an `Except.error` is an exception escaping the pipeline
steps. -/
def runPipeline (env : PipelineEnv) (queue_item_id : String) : Except String TaskResult := do
  let _ ← env.ensure_dir
  let original_path ← env.save_original
  let _ ← env.preprocess
  let preprocessed_path ← env.save_preprocessed
  let comparison_path ← if env.skel.save_comparison then env.comparison else pure Option.none
  let _ ← env.visual_pause
  let bs := matchingStep env
  let best_match := bs.1.getD (mockTemplate env.skel.mock_template_name)
  let best_score := bs.2
  let auto_match_threshold := thresholdOf env
  match forcedStatus env.skel with
  | some s =>
      pure ({ status := s, queue_item_id := queue_item_id,
              confidence := some best_score,
              template_matched := best_match.format_name,
              extracted_fields := Option.none, extraction_metadata := Option.none,
              message := Option.none, error := Option.none,
              original_path := some original_path,
              preprocessed_path := some preprocessed_path,
              comparison_path := comparison_path, skeleton_mode := some true } : TaskResult)
  | Option.none =>
      if auto_match_threshold ≤ best_score then
        let er := extract_fields_task env.extraction queue_item_id best_match.id
        pure ({ status := "completed", queue_item_id := queue_item_id,
                confidence := some best_score,
                template_matched := best_match.format_name,
                extracted_fields := some er.extracted_fields,
                extraction_metadata := er.extraction_metadata,
                message := Option.none, error := Option.none,
                original_path := some original_path,
                preprocessed_path := some preprocessed_path,
                comparison_path := comparison_path,
                skeleton_mode := some er.skeleton_mode } : TaskResult)
      else
        pure ({ status := "review", queue_item_id := queue_item_id,
                confidence := some best_score,
                template_matched := best_match.format_name,
                extracted_fields := Option.none, extraction_metadata := Option.none,
                message := some "Low confidence - requires human review",
                error := Option.none,
                original_path := some original_path,
                preprocessed_path := some preprocessed_path,
                comparison_path := comparison_path,
                skeleton_mode := some true } : TaskResult)

/-- The `failed` result dict built by the `except` handler of
process_document_task (lines 325-334). -/
def failedResult (queue_item_id e : String) : TaskResult :=
  { status := "failed", queue_item_id := queue_item_id, confidence := Option.none,
    template_matched := Option.none, extracted_fields := Option.none,
    extraction_metadata := Option.none, message := Option.none, error := some e,
    original_path := Option.none, preprocessed_path := Option.none,
    comparison_path := Option.none, skeleton_mode := Option.none }

/-- Shallow embedding of process_document_task (document_tasks.py lines
173-334): the pipeline body runs inside one catch-all `try`; any
exception is caught and turned into the `failed` result dict with the
captured error text. The embedding is a total function: the task always
returns a result, never re-raises. -/
def process_document_task (env : PipelineEnv) (queue_item_id : String) : TaskResult :=
  match runPipeline env queue_item_id with
  | .ok r => r
  | .error e => failedResult queue_item_id e

/-- All effectful steps before the decision gate succeed. -/
def stepsOk (env : PipelineEnv) : Prop :=
  env.ensure_dir = Except.ok ()
    ∧ (∃ p, env.save_original = Except.ok p)
    ∧ env.preprocess = Except.ok ()
    ∧ (∃ p, env.save_preprocessed = Except.ok p)
    ∧ (env.skel.save_comparison = true → ∃ c, env.comparison = Except.ok c)
    ∧ env.visual_pause = Except.ok ()

/-- Some pipeline step raises the exception `e`, every earlier step
succeeding. The matching and extraction steps are absent: their
exceptions are caught locally (inner `try` of lines 235-262 and the
`try` of extract_fields_task) and never escape. -/
def raisesAt (env : PipelineEnv) (e : String) : Prop :=
  env.ensure_dir = Except.error e
    ∨ (env.ensure_dir = Except.ok () ∧ env.save_original = Except.error e)
    ∨ (env.ensure_dir = Except.ok () ∧ (∃ p, env.save_original = Except.ok p)
        ∧ env.preprocess = Except.error e)
    ∨ (env.ensure_dir = Except.ok () ∧ (∃ p, env.save_original = Except.ok p)
        ∧ env.preprocess = Except.ok () ∧ env.save_preprocessed = Except.error e)
    ∨ (env.ensure_dir = Except.ok () ∧ (∃ p, env.save_original = Except.ok p)
        ∧ env.preprocess = Except.ok () ∧ (∃ p, env.save_preprocessed = Except.ok p)
        ∧ env.skel.save_comparison = true ∧ env.comparison = Except.error e)
    ∨ (env.ensure_dir = Except.ok () ∧ (∃ p, env.save_original = Except.ok p)
        ∧ env.preprocess = Except.ok () ∧ (∃ p, env.save_preprocessed = Except.ok p)
        ∧ (env.skel.save_comparison = true → ∃ c, env.comparison = Except.ok c)
        ∧ env.visual_pause = Except.error e)

/-- C2: whenever a pipeline step raises, process_document_task returns
the `failed` result dict carrying the captured error text (and, being a
total function, never re-raises to the caller). -/
theorem process_document_task_catches (env : PipelineEnv) (queue_item_id e : String)
    (h : raisesAt env e) :
    process_document_task env queue_item_id = failedResult queue_item_id e := by
  rcases h with h | ⟨h1, h⟩ | ⟨h1, ⟨p2, h2⟩, h⟩ | ⟨h1, ⟨p2, h2⟩, h3, h⟩
    | ⟨h1, ⟨p2, h2⟩, h3, ⟨p4, h4⟩, hsc, h⟩ | ⟨h1, ⟨p2, h2⟩, h3, ⟨p4, h4⟩, hcmp, h⟩
  · simp [process_document_task, runPipeline, h, Bind.bind, Except.bind]
  · simp [process_document_task, runPipeline, h1, h, Bind.bind, Except.bind]
  · simp [process_document_task, runPipeline, h1, h2, h, Bind.bind, Except.bind]
  · simp [process_document_task, runPipeline, h1, h2, h3, h, Bind.bind, Except.bind]
  · simp [process_document_task, runPipeline, h1, h2, h3, h4, hsc, h, Bind.bind, Except.bind]
  · by_cases hsc : env.skel.save_comparison = true
    · obtain ⟨c, hc⟩ := hcmp hsc
      simp [process_document_task, runPipeline, h1, h2, h3, h4, hsc, hc, h,
        Bind.bind, Except.bind]
    · simp [process_document_task, runPipeline, h1, h2, h3, h4, hsc, h,
        Bind.bind, Except.bind, Pure.pure, Except.pure]

/-- Concrete environment whose first pipeline step raises, for the C2
witness. -/
def failingEnv : PipelineEnv :=
  { skel := { use_mock_matching := false, fallback_confidence := 0.85,
              mock_template_name := "mock_template",
              auto_match_threshold_override := Option.none,
              force_status := Option.none, save_comparison := true },
    auto_match_config := 0.85,
    ensure_dir := Except.error "PermissionError: queue directory",
    save_original := Except.ok "original.png",
    preprocess := Except.ok (), save_preprocessed := Except.ok "preprocessed.png",
    comparison := Except.ok (some "preprocessing_comparison.png"),
    visual_pause := Except.ok (),
    match_outcome := Except.ok
      { matched_template_id := Option.none, match_score := 0,
        template_name := Option.none },
    db_lookup := Except.ok Option.none,
    extraction := { cfg := { use_mock_extraction := true, mock_fields := [] },
                    runOutcome := Except.error "unused" } }

/-- Witness for C2 at a concrete failing environment. -/
theorem process_document_task_catches_witness :
    raisesAt failingEnv "PermissionError: queue directory"
      ∧ process_document_task failingEnv "q1"
          = failedResult "q1" "PermissionError: queue directory" :=
  ⟨Or.inl rfl,
    process_document_task_catches failingEnv "q1" "PermissionError: queue directory"
      (Or.inl rfl)⟩

/-- Behavior of the decision gate claimed by the specification, plus
the confidence-scoring clause: when the gate score reaches the
threshold, the run is completed and carries the extraction result, and
in the real (non-mock, non-raising) extraction path the attached
metadata holds the score computed by calculate_confidence; below the
threshold the run is routed to review with no extracted fields. -/
def decisionGateSpec (env : PipelineEnv) (queue_item_id : String) : Prop :=
  (thresholdOf env ≤ (matchingStep env).2 →
      (process_document_task env queue_item_id).status = "completed"
        ∧ (process_document_task env queue_item_id).extracted_fields
            = some (extract_fields_task env.extraction queue_item_id
                ((matchingStep env).1.getD
                  (mockTemplate env.skel.mock_template_name)).id).extracted_fields
        ∧ (process_document_task env queue_item_id).extraction_metadata
            = (extract_fields_task env.extraction queue_item_id
                ((matchingStep env).1.getD
                  (mockTemplate env.skel.mock_template_name)).id).extraction_metadata)
    ∧ ((matchingStep env).2 < thresholdOf env →
        (process_document_task env queue_item_id).status = "review"
          ∧ (process_document_task env queue_item_id).extracted_fields = Option.none)
    ∧ (thresholdOf env ≤ (matchingStep env).2 →
        env.extraction.cfg.use_mock_extraction = false →
        ∀ run fmtc, env.extraction.runOutcome = Except.ok run →
          run.detected = some fmtc →
          (process_document_task env queue_item_id).extraction_metadata = some
            { vendor := fmtc.1.vendor_name, format_detected := fmtc.1.format_id,
              confidence := calculate_confidence run.ocr_data
                (augmentFields fmtc.1 fmtc.2 run.raw_fields) fmtc.1,
              confidence_level := get_confidence_level (calculate_confidence run.ocr_data
                (augmentFields fmtc.1 fmtc.2 run.raw_fields) fmtc.1),
              ocr_text_length := run.ocr_text.length })

/-- C1: a run whose steps all succeed and that is not diverted by a
forced skeleton status reaches the decision gate, where the score is
compared inclusively against the threshold: at or above the threshold
the run is completed with field extraction (and, on the real path,
confidence scoring); strictly below it the run is routed to review. -/
theorem process_decision_gate (env : PipelineEnv) (queue_item_id : String)
    (hsteps : stepsOk env) (hforce : forcedStatus env.skel = Option.none) :
    decisionGateSpec env queue_item_id := by
  obtain ⟨h1, ⟨p2, h2⟩, h3, ⟨p4, h4⟩, h5, h6⟩ := hsteps
  by_cases hsc : env.skel.save_comparison = true
  · obtain ⟨c, hcomp⟩ := h5 hsc
    refine ⟨?_, ?_, ?_⟩
    · intro hle
      refine ⟨?_, ?_, ?_⟩ <;>
        simp [process_document_task, runPipeline, h1, h2, h3, h4, hsc, hcomp, h6,
          hforce, hle, Bind.bind, Except.bind, Pure.pure, Except.pure]
    · intro hlt
      have hnle : ¬ thresholdOf env ≤ (matchingStep env).2 := not_le.mpr hlt
      refine ⟨?_, ?_⟩ <;>
        simp [process_document_task, runPipeline, h1, h2, h3, h4, hsc, hcomp, h6,
          hforce, hnle, Bind.bind, Except.bind, Pure.pure, Except.pure]
    · intro hle hmock run fmtc hrun hdet
      simp [process_document_task, runPipeline, h1, h2, h3, h4, hsc, hcomp, h6,
        hforce, hle, Bind.bind, Except.bind, Pure.pure, Except.pure,
        extract_fields_task, hmock, hrun, documentExtract, hdet]
  · refine ⟨?_, ?_, ?_⟩
    · intro hle
      refine ⟨?_, ?_, ?_⟩ <;>
        simp [process_document_task, runPipeline, h1, h2, h3, h4, hsc, h6,
          hforce, hle, Bind.bind, Except.bind, Pure.pure, Except.pure]
    · intro hlt
      have hnle : ¬ thresholdOf env ≤ (matchingStep env).2 := not_le.mpr hlt
      refine ⟨?_, ?_⟩ <;>
        simp [process_document_task, runPipeline, h1, h2, h3, h4, hsc, h6,
          hforce, hnle, Bind.bind, Except.bind, Pure.pure, Except.pure]
    · intro hle hmock run fmtc hrun hdet
      simp [process_document_task, runPipeline, h1, h2, h3, h4, hsc, h6,
        hforce, hle, Bind.bind, Except.bind, Pure.pure, Except.pure,
        extract_fields_task, hmock, hrun, documentExtract, hdet]

/-- Concrete environment reaching the gate with score 0.9 against
threshold 0.85, with a real (non-mock) extraction run, for the C1
witness. -/
def gateEnv : PipelineEnv :=
  { skel := { use_mock_matching := false, fallback_confidence := 0.85,
              mock_template_name := "mock_template",
              auto_match_threshold_override := Option.none,
              force_status := Option.none, save_comparison := true },
    auto_match_config := 0.85,
    ensure_dir := Except.ok (), save_original := Except.ok "original.png",
    preprocess := Except.ok (), save_preprocessed := Except.ok "preprocessed.png",
    comparison := Except.ok (some "preprocessing_comparison.png"),
    visual_pause := Except.ok (),
    match_outcome := Except.ok
      { matched_template_id := some "tpl1", match_score := 0.9,
        template_name := some "mead_clark_format1" },
    db_lookup := Except.ok (some { format_name := some "mead_clark_format1",
                                   id := some "tpl1" }),
    extraction :=
      { cfg := { use_mock_extraction := false, mock_fields := [] },
        runOutcome := Except.ok
          { ocr_text := "RECEIPT 2025-01-02 TOTAL 12.50",
            ocr_data := some { conf := some [90, -1, 80], text := true },
            detected := some
              ({ vendor_name := some "Mead Clark",
                 format_id := some "mead_clark_format1",
                 required_fields := ["total_amount"],
                 optional_fields := ["receipt_date"] },
                0.9),
            raw_fields := [("total_amount", FieldValue.str "12.50"),
              ("receipt_date", FieldValue.str "2025-01-02")] } } }

/-- Witness for C1 at a concrete environment. -/
theorem process_decision_gate_witness :
    stepsOk gateEnv ∧ forcedStatus gateEnv.skel = Option.none
      ∧ decisionGateSpec gateEnv "q1" :=
  ⟨⟨rfl, ⟨"original.png", rfl⟩, rfl, ⟨"preprocessed.png", rfl⟩,
      fun _ => ⟨some "preprocessing_comparison.png", rfl⟩, rfl⟩,
    rfl,
    process_decision_gate gateEnv "q1"
      ⟨rfl, ⟨"original.png", rfl⟩, rfl, ⟨"preprocessed.png", rfl⟩,
        fun _ => ⟨some "preprocessing_comparison.png", rfl⟩, rfl⟩
      rfl⟩

/-- Fallback behavior of the pipeline when template matching finds no
matched template: the run carries the configured fallback confidence
and the mock placeholder name, and its routing follows the ordinary
decision gate — review exactly when the fallback confidence is below
the auto-match threshold. -/
def fallbackSpec (env : PipelineEnv) (queue_item_id : String) : Prop :=
  (process_document_task env queue_item_id).confidence = some env.skel.fallback_confidence
    ∧ (process_document_task env queue_item_id).template_matched
        = some env.skel.mock_template_name
    ∧ ((process_document_task env queue_item_id).status
        = if thresholdOf env ≤ env.skel.fallback_confidence then "completed" else "review")

/-- C4 (amended): with real matching returning no matched template (no
templates exist, or none scores above zero), the run falls back to the
configured fallback confidence with the mock placeholder template, and
is routed to review only when that fallback confidence is below the
auto-match threshold; otherwise it is marked completed. -/
theorem process_fallback (env : PipelineEnv) (queue_item_id : String)
    (hsteps : stepsOk env) (hforce : forcedStatus env.skel = Option.none)
    (hmock : env.skel.use_mock_matching = false)
    (mr : MatchOutcome) (hmr : env.match_outcome = Except.ok mr)
    (hid : mr.matched_template_id = Option.none) (hscore : mr.match_score = 0) :
    fallbackSpec env queue_item_id := by
  obtain ⟨h1, ⟨p2, h2⟩, h3, ⟨p4, h4⟩, h5, h6⟩ := hsteps
  have hms : matchingStep env = (Option.none, env.skel.fallback_confidence) := by
    simp [matchingStep, hmock, hmr, hid, hscore]
  have hget : ((matchingStep env).1.getD (mockTemplate env.skel.mock_template_name))
      = mockTemplate env.skel.mock_template_name := by
    rw [hms]
    rfl
  by_cases hsc : env.skel.save_comparison = true
  · obtain ⟨c, hcomp⟩ := h5 hsc
    by_cases hle : thresholdOf env ≤ env.skel.fallback_confidence
    · refine ⟨?_, ?_, ?_⟩ <;>
        simp [process_document_task, runPipeline, h1, h2, h3, h4, hsc, hcomp, h6,
          hforce, hms, hle, mockTemplate, Bind.bind, Except.bind, Pure.pure, Except.pure]
    · refine ⟨?_, ?_, ?_⟩ <;>
        simp [process_document_task, runPipeline, h1, h2, h3, h4, hsc, hcomp, h6,
          hforce, hms, hle, mockTemplate, Bind.bind, Except.bind, Pure.pure, Except.pure]
  · by_cases hle : thresholdOf env ≤ env.skel.fallback_confidence
    · refine ⟨?_, ?_, ?_⟩ <;>
        simp [process_document_task, runPipeline, h1, h2, h3, h4, hsc, h6,
          hforce, hms, hle, mockTemplate, Bind.bind, Except.bind, Pure.pure, Except.pure]
    · refine ⟨?_, ?_, ?_⟩ <;>
        simp [process_document_task, runPipeline, h1, h2, h3, h4, hsc, h6,
          hforce, hms, hle, mockTemplate, Bind.bind, Except.bind, Pure.pure, Except.pure]

/-- Concrete environment where no template matches, with the default
fallback confidence 0.85 equal to the auto-match threshold 0.85. -/
def noMatchEnv : PipelineEnv :=
  { skel := { use_mock_matching := false, fallback_confidence := 0.85,
              mock_template_name := "mock_template",
              auto_match_threshold_override := Option.none,
              force_status := Option.none, save_comparison := true },
    auto_match_config := 0.85,
    ensure_dir := Except.ok (), save_original := Except.ok "original.png",
    preprocess := Except.ok (), save_preprocessed := Except.ok "preprocessed.png",
    comparison := Except.ok (some "preprocessing_comparison.png"),
    visual_pause := Except.ok (),
    match_outcome := Except.ok
      { matched_template_id := Option.none, match_score := 0,
        template_name := Option.none },
    db_lookup := Except.ok Option.none,
    extraction := { cfg := { use_mock_extraction := true,
                             mock_fields := [("total", FieldValue.str "0.00")] },
                    runOutcome := Except.error "unused" } }

/-- C4 counterexample: template matching found nothing, the fallback
confidence (default 0.85) meets the auto-match threshold (0.85), and
the document is marked completed — not routed to review as the claim
states. -/
theorem process_fallback_counterexample :
    (process_document_task noMatchEnv "q1").status = "completed"
      ∧ (process_document_task noMatchEnv "q1").status ≠ "review"
      ∧ (process_document_task noMatchEnv "q1").confidence = some (0.85 : ℚ)
      ∧ noMatchEnv.skel.fallback_confidence = 0.85
      ∧ thresholdOf noMatchEnv = 0.85 := by
  refine ⟨?_, ?_, ?_, rfl, rfl⟩ <;>
    simp [process_document_task, runPipeline, noMatchEnv, matchingStep, thresholdOf,
      forcedStatus, mockTemplate, extract_fields_task, Bind.bind, Except.bind,
      Pure.pure, Except.pure]

/-- Witness for the amended C4 at a concrete environment. -/
theorem process_fallback_witness :
    stepsOk noMatchEnv ∧ forcedStatus noMatchEnv.skel = Option.none
      ∧ noMatchEnv.skel.use_mock_matching = false
      ∧ fallbackSpec noMatchEnv "q2" :=
  ⟨⟨rfl, ⟨"original.png", rfl⟩, rfl, ⟨"preprocessed.png", rfl⟩,
      fun _ => ⟨some "preprocessing_comparison.png", rfl⟩, rfl⟩,
    rfl, rfl,
    process_fallback noMatchEnv "q2"
      ⟨rfl, ⟨"original.png", rfl⟩, rfl, ⟨"preprocessed.png", rfl⟩,
        fun _ => ⟨some "preprocessing_comparison.png", rfl⟩, rfl⟩
      rfl rfl
      { matched_template_id := Option.none, match_score := 0,
        template_name := Option.none }
      rfl rfl rfl⟩

end DigiDoc
